import Mathlib

/-!
Verification development for the `tavily-auto-free` repository.

Each module of the Python source is shallowly embedded as executable Lean
definitions; randomness, network responses and filesystem outcomes are
passed in explicitly as parameters, and side effects (HTTP calls, IMAP
commands, file writes, sleeps) are reified as traces of operations.
-/

namespace Tavily

/-! ## Mail-code extraction (src/core/email_verify.py)

`_get_latest_mail_code` extracts a verification code from the mail body with
`re.search(r"(?<![a-zA-Z@.])\b\d{6}\b", mail_text)`.  The embedding treats
the text as ASCII, matching the character classes of the regex literally:
`\w` (used by `\b`) is `[A-Za-z0-9_]`, `\d` is `[0-9]`. -/

namespace EmailVerify

/-- A word character in the sense of the `\b` anchors of the regex. -/
def isWordChar (c : Char) : Bool := c.isAlphanum || c = '_'

/-- A character rejected by the negative lookbehind `(?<![a-zA-Z@.])`. -/
def isLookbehindRejected (c : Char) : Bool := c.isAlpha || c = '@' || c = '.'

/-- The zero-width condition at the start of a match: the lookbehind plus the
leading `\b` (the next character is a digit, hence a word character, so the
boundary requires the previous character, when present, to be a non-word
character). -/
def boundaryBefore (prev : Option Char) : Bool :=
  match prev with
  | none => true
  | some p => !isLookbehindRejected p && !isWordChar p

/-- `\d{6}\b` starting at the head of the list: six digits followed by the
end of the text or a non-word character. -/
def codeMatchHere (cs : List Char) : Bool :=
  match cs with
  | d1 :: d2 :: d3 :: d4 :: d5 :: d6 :: rest =>
    d1.isDigit && d2.isDigit && d3.isDigit && d4.isDigit && d5.isDigit && d6.isDigit &&
      (match rest with
       | [] => true
       | c :: _ => !isWordChar c)
  | _ => false

/-- `re.search` on the code regex: scan left to right, keeping the previous
character for the zero-width conditions, and return the six digits of the
leftmost match. -/
def searchCode (prev : Option Char) (s : List Char) : Option (List Char) :=
  match s with
  | [] => none
  | c :: rest =>
    if boundaryBefore prev && codeMatchHere (c :: rest) then
      some ((c :: rest).take 6)
    else
      searchCode (some c) rest

/-- Code extraction from a mail body, as performed by `_get_latest_mail_code`
(lines 121-132 of src/core/email_verify.py). -/
def extract_code (body : String) : Option String :=
  (searchCode none body.data).map fun l => ⟨l⟩

example : extract_code "...order 482913 confirmed, code: 728193..." = some "482913" := by
  decide

example : extract_code "id12345678" = none := by decide

/-- The match condition of the code regex at index `i` of the text, phrased
over indices: the zero-width conditions hold against the character at `i - 1`
(none at the start of the text) and `\d{6}\b` matches at `i`.  The extra
`prev` argument stands for the character just before the scanned suffix. -/
def qualAux (prev : Option Char) (s : List Char) (i : Nat) : Bool :=
  boundaryBefore (match i with | 0 => prev | j + 1 => s.get? j) && codeMatchHere (s.drop i)

/-- The match condition at index `i` of a whole text. -/
def qualifiesAt (s : List Char) (i : Nat) : Bool := qualAux none s i

lemma qualAux_succ (prev : Option Char) (c : Char) (rest : List Char) (j : Nat) :
    qualAux prev (c :: rest) (j + 1) = qualAux (some c) rest j := by
  cases j <;> rfl

lemma qualAux_zero (prev : Option Char) (c : Char) (rest : List Char) :
    qualAux prev (c :: rest) 0 = (boundaryBefore prev && codeMatchHere (c :: rest)) := rfl

/-- `searchCode` returns exactly the six digits at the least index where the
regex matches. -/
lemma searchCode_eq_some_iff (s : List Char) (prev : Option Char) (w : List Char) :
    searchCode prev s = some w ↔
      ∃ i, qualAux prev s i = true ∧ (∀ j, j < i → qualAux prev s j = false) ∧
        w = (s.drop i).take 6 := by
  induction s generalizing prev with
  | nil =>
    simp only [searchCode]
    constructor
    · intro h; exact absurd h (by simp)
    · rintro ⟨i, hq, -, -⟩
      simp [qualAux, codeMatchHere] at hq
  | cons c rest ih =>
    simp only [searchCode]
    by_cases hc : (boundaryBefore prev && codeMatchHere (c :: rest)) = true
    · rw [if_pos hc]
      constructor
      · rintro h
        refine ⟨0, by simpa [qualAux_zero] using hc, by omega, ?_⟩
        rw [List.drop_zero]
        exact (Option.some_injective _ h).symm
      · rintro ⟨i, hq, hmin, hw⟩
        have hi : i = 0 := by
          by_contra hne
          have h0 : qualAux prev (c :: rest) 0 = false := hmin 0 (Nat.pos_of_ne_zero hne)
          rw [qualAux_zero] at h0
          rw [h0] at hc
          exact absurd hc (by simp)
        subst hi
        simp [hw]
    · rw [if_neg hc]
      rw [ih (some c)]
      constructor
      · rintro ⟨i, hq, hmin, hw⟩
        refine ⟨i + 1, ?_, ?_, ?_⟩
        · rw [qualAux_succ]; exact hq
        · intro j hj
          match j with
          | 0 =>
            rw [qualAux_zero]
            exact Bool.not_eq_true _ ▸ hc
          | j' + 1 =>
            rw [qualAux_succ]
            exact hmin j' (by omega)
        · simpa using hw
      · rintro ⟨i, hq, hmin, hw⟩
        match i with
        | 0 =>
          rw [qualAux_zero] at hq
          exact absurd hq (by simpa using hc)
        | i' + 1 =>
          refine ⟨i', ?_, ?_, ?_⟩
          · rw [qualAux_succ] at hq; exact hq
          · intro j hj
            have := hmin (j + 1) (by omega)
            rw [qualAux_succ] at this; exact this
          · simpa using hw

/-! ### The retry loop of `get_verification_code` (lines 47-77)

The per-attempt fetch `_get_latest_mail_code` is total (it catches all of its
own exceptions and returns `None`), so it is passed in as an oracle
`fetch : Nat → Option String` from attempt index to result.  The loop sleeps
`retry_interval` seconds between attempts, but only when the attempt is not
the last one; the value of the interval does not affect control flow, so the
embedding returns the number of fetch calls and the number of sleeps
alongside the result.  The surrounding `try/except` of the Python function
returns `None` on any exception, so the embedding is a total function. -/

/-- One pass of the `for attempt in range(max_retries)` loop, starting at
`attempt` with `remaining` iterations left. -/
def pollLoop (fetch : Nat → Option String) (attempt remaining : Nat) :
    Option String × Nat × Nat :=
  match remaining with
  | 0 => (none, 0, 0)
  | r + 1 =>
    match fetch attempt with
    | some c => (some c, 1, 0)
    | none =>
      if r = 0 then (none, 1, 0)
      else
        let p := pollLoop fetch (attempt + 1) r
        (p.1, p.2.1 + 1, p.2.2 + 1)

/-- `EmailVerificationHandler.get_verification_code(max_retries, retry_interval)`:
result, number of `_get_latest_mail_code` calls, number of sleeps. -/
def get_verification_code (fetch : Nat → Option String) (max_retries : Nat) :
    Option String × Nat × Nat :=
  pollLoop fetch 0 max_retries

lemma pollLoop_found (fetch : Nat → Option String) (c : String) :
    ∀ n r a, n < r → (∀ i, i < n → fetch (a + i) = none) → fetch (a + n) = some c →
      pollLoop fetch a r = (some c, n + 1, n) := by
  intro n
  induction n with
  | zero =>
    intro r a hr _ hc
    match r, hr with
    | r' + 1, _ =>
      simp only [pollLoop]
      rw [show a + 0 = a from rfl] at hc
      rw [hc]
  | succ n ih =>
    intro r a hr hnone hc
    match r, hr with
    | r' + 1, _ =>
      have hr' : n < r' := by omega
      simp only [pollLoop]
      have h0 : fetch a = none := by
        have := hnone 0 (by omega)
        simpa using this
      rw [h0]
      have hr'0 : ¬ r' = 0 := by omega
      rw [if_neg hr'0]
      have hrec : pollLoop fetch (a + 1) r' = (some c, n + 1, n) := by
        refine ih r' (a + 1) hr' ?_ ?_
        · intro i hi
          have := hnone (i + 1) (by omega)
          rw [show a + (i + 1) = a + 1 + i by omega] at this
          exact this
        · rw [show a + 1 + n = a + (n + 1) by omega]
          exact hc
      rw [hrec]

lemma pollLoop_exhausted (fetch : Nat → Option String) :
    ∀ r a, (∀ i, i < r → fetch (a + i) = none) →
      pollLoop fetch a r = (none, r, r - 1) := by
  intro r
  induction r with
  | zero => intro a _; rfl
  | succ r ih =>
    intro a hnone
    simp only [pollLoop]
    have h0 : fetch a = none := by simpa using hnone 0 (by omega)
    rw [h0]
    by_cases hr : r = 0
    · subst hr; rw [if_pos rfl]
    · rw [if_neg hr]
      have hrec : pollLoop fetch (a + 1) r = (none, r, r - 1) := by
        refine ih (a + 1) ?_
        intro i hi
        have := hnone (i + 1) (by omega)
        rw [show a + (i + 1) = a + 1 + i by omega] at this
        exact this
      rw [hrec]
      simp only [Prod.mk.injEq, true_and]
      omega

/-! ### The mailbox deletion loop `_cleanup_mail` (lines 138-166) and the
full poll `_get_latest_mail_code` (lines 79-136)

HTTP effects are reified as a trace of operations; the outcome of the k-th
DELETE request is an oracle `del : Nat → DelOutcome` (`raised` models a
`requests` exception, which the loop catches and logs without sleeping). -/

inductive DelOutcome
  | ok200
  | badStatus
  | raised
deriving DecidableEq

inductive HttpOp
  | getList
  | getContent (id : String)
  | deleteReq (id : String)
  | sleepSec (n : Nat)
deriving DecidableEq

/-- The `for attempt in range(max_retries)` body of `_cleanup_mail`,
with `fuel` iterations left and `k` attempts already made. -/
def cleanupLoop (del : Nat → DelOutcome) (mail_id : String) (k fuel : Nat) :
    Bool × List HttpOp :=
  match fuel with
  | 0 => (false, [])
  | f + 1 =>
    match del k with
    | .ok200 => (true, [.deleteReq mail_id])
    | .badStatus =>
      let p := cleanupLoop del mail_id (k + 1) f
      (p.1, .deleteReq mail_id :: .sleepSec 1 :: p.2)
    | .raised =>
      let p := cleanupLoop del mail_id (k + 1) f
      (p.1, .deleteReq mail_id :: p.2)

/-- `_cleanup_mail(mail_id, max_retries=3)`: best-effort deletion, at most
three attempts, never raising. -/
def cleanup_mail (del : Nat → DelOutcome) (mail_id : String) : Bool × List HttpOp :=
  cleanupLoop del mail_id 0 3

/-- Number of DELETE requests in a trace. -/
def countDeletes (ops : List HttpOp) : Nat :=
  ops.countP fun op => match op with | .deleteReq _ => true | _ => false

lemma cleanupLoop_deletes_le (del : Nat → DelOutcome) (mail_id : String) :
    ∀ fuel k, countDeletes (cleanupLoop del mail_id k fuel).2 ≤ fuel := by
  intro fuel
  induction fuel with
  | zero => intro k; simp [cleanupLoop, countDeletes]
  | succ f ih =>
    intro k
    simp only [cleanupLoop]
    cases del k <;> simp only [countDeletes, List.countP_cons] at * <;>
      simp [countDeletes] <;> exact ih (k + 1)

lemma cleanupLoop_deletes_pos (del : Nat → DelOutcome) (mail_id : String) :
    ∀ fuel k, 0 < fuel → 0 < countDeletes (cleanupLoop del mail_id k fuel).2 := by
  intro fuel k hf
  match fuel, hf with
  | f + 1, _ =>
    simp only [cleanupLoop]
    cases del k <;> simp [countDeletes, List.countP_cons]

/-- The state of the temp-mail HTTP backend for one poll: statuses and JSON
payloads of the three endpoints, plus the delete-attempt oracle. -/
structure HttpMailState where
  listStatus : Nat
  mailIds : List String
  contentStatus : Nat
  contentEmpty : Bool
  contentText : Option String
  del : Nat → DelOutcome

/-- `_get_latest_mail_code`: list the mailbox, read the first (latest)
message, extract the code; when a code is found, delete the message
best-effort and return the code regardless of the deletion outcome. -/
def get_latest_mail_code (st : HttpMailState) : Option String × List HttpOp :=
  if st.listStatus ≠ 200 then (none, [.getList])
  else if st.mailIds = [] then (none, [.getList])
  else
    let latest := st.mailIds.headD ""
    if st.contentStatus ≠ 200 then (none, [.getList, .getContent latest])
    else if st.contentEmpty then (none, [.getList, .getContent latest])
    else
      match searchCode none (st.contentText.getD "").data with
      | some w =>
        let p := cleanup_mail st.del latest
        (some ⟨w⟩, [.getList, .getContent latest] ++ p.2)
      | none => (none, [.getList, .getContent latest])

end EmailVerify

/-! ## The IMAP mailbox backend (src/email_handler.py)

`EmailHandler.get_verification_code` polls an IMAP mailbox: per attempt it
selects the configured directory, searches `FROM <sender>`, fetches the last
(numerically highest) message id of the search result, and scans the decoded
body with `re.search(r"\b\d{6}\b", body)`.  IMAP commands are reified as a
trace; the op vocabulary includes message deletion (imaplib offers it via
STORE/EXPUNGE) so that its absence from every trace is a statement about the
source, which never invokes it. -/

namespace EmailHandler

inductive ImapOp
  | selectBox
  | searchFrom (sender : String)
  | fetchMsg (id : Nat)
  | deleteMsg (id : Nat)
  | sleepSec (n : Nat)
deriving DecidableEq

/-- The leading `\b` of `\b\d{6}\b`: no lookbehind here, only the word
boundary. -/
def simpleBoundary (prev : Option Char) : Bool :=
  match prev with
  | none => true
  | some p => !EmailVerify.isWordChar p

/-- `re.search(r"\b\d{6}\b", body)`, leftmost match. -/
def searchSixDigits (prev : Option Char) (s : List Char) : Option (List Char) :=
  match s with
  | [] => none
  | c :: rest =>
    if simpleBoundary prev && EmailVerify.codeMatchHere (c :: rest) then
      some ((c :: rest).take 6)
    else
      searchSixDigits (some c) rest

/-- What one IMAP poll attempt observes: the ids returned by the SEARCH, and
the decoded text body of the fetched message (`none` models a body that
`_get_email_body` failed to produce). -/
structure ImapAttempt where
  searchIds : List Nat
  body : Option String

/-- The `for attempt in range(max_retries)` loop of
`EmailHandler.get_verification_code` (lines 38-83), with `remaining`
iterations left.  On a code match the function returns at once; the fetched
message is not deleted. -/
def imapLoop (att : Nat → ImapAttempt) (sender : String) (interval : Nat)
    (attempt remaining : Nat) : Option String × List ImapOp :=
  match remaining with
  | 0 => (none, [])
  | r + 1 =>
    let a := att attempt
    let ops0 : List ImapOp := [.selectBox, .searchFrom sender]
    if a.searchIds = [] then
      if r = 0 then (none, ops0)
      else
        let p := imapLoop att sender interval (attempt + 1) r
        (p.1, ops0 ++ [.sleepSec interval] ++ p.2)
    else
      let latest := a.searchIds.getLastD 0
      let ops1 := ops0 ++ [.fetchMsg latest]
      match a.body with
      | some b =>
        match searchSixDigits none b.data with
        | some w => (some ⟨w⟩, ops1)
        | none =>
          if r = 0 then (none, ops1)
          else
            let p := imapLoop att sender interval (attempt + 1) r
            (p.1, ops1 ++ [.sleepSec interval] ++ p.2)
      | none =>
        if r = 0 then (none, ops1)
        else
          let p := imapLoop att sender interval (attempt + 1) r
          (p.1, ops1 ++ [.sleepSec interval] ++ p.2)

/-- `EmailHandler.get_verification_code(sender, max_retries, retry_interval)`
with an established connection. -/
def get_verification_code (att : Nat → ImapAttempt) (sender : String)
    (max_retries interval : Nat) : Option String × List ImapOp :=
  imapLoop att sender interval 0 max_retries

/-- The IMAP poller never deletes a message: no trace it can produce contains
a `deleteMsg` operation. -/
lemma imapLoop_no_delete (att : Nat → ImapAttempt) (sender : String) (interval : Nat) :
    ∀ remaining attempt i, ImapOp.deleteMsg i ∉ (imapLoop att sender interval attempt remaining).2 := by
  intro remaining
  induction remaining with
  | zero => intro attempt i; simp [imapLoop]
  | succ r ih =>
    intro attempt i
    simp only [imapLoop]
    by_cases hids : (att attempt).searchIds = []
    · rw [if_pos hids]
      by_cases hr : r = 0
      · rw [if_pos hr]; simp
      · rw [if_neg hr]
        intro h
        rcases List.mem_append.mp h with h1 | h2
        · simp at h1
        · exact ih (attempt + 1) i h2
    · rw [if_neg hids]
      rcases Option.eq_none_or_eq_some (att attempt).body with hb | ⟨b, hb⟩
      · simp only [hb]
        by_cases hr : r = 0
        · rw [if_pos hr]; simp
        · rw [if_neg hr]
          intro h
          rcases List.mem_append.mp h with h1 | h2
          · simp at h1
          · exact ih (attempt + 1) i h2
      · simp only [hb]
        rcases Option.eq_none_or_eq_some (searchSixDigits none b.data) with hs | ⟨w, hs⟩
        · simp only [hs]
          by_cases hr : r = 0
          · rw [if_pos hr]; simp
          · rw [if_neg hr]
            intro h
            rcases List.mem_append.mp h with h1 | h2
            · simp at h1
            · exact ih (attempt + 1) i h2
        · simp only [hs]
          simp

end EmailHandler

/-! ## Credential generation (src/utils/utils.py)

`random.choice(seq)` is embedded as picking `seq[r mod len(seq)]` for an
arbitrary draw `r` supplied by a stream `Nat → Nat`; `random.shuffle` is an
arbitrary function assumed (in the theorems) to permute its input. -/

namespace Utils

/-- `string.ascii_lowercase`. -/
def lowercaseChars : List Char := "abcdefghijklmnopqrstuvwxyz".data

/-- `string.ascii_uppercase`. -/
def uppercaseChars : List Char := "ABCDEFGHIJKLMNOPQRSTUVWXYZ".data

/-- `string.digits`. -/
def digitChars : List Char := "0123456789".data

/-- The fixed symbol set `special = "@#$%"` of `generate_password`. -/
def specialChars : List Char := "@#$%".data

/-- `string.ascii_letters + string.digits`, the alphabet of
`generate_random_string`. -/
def lettersDigits : List Char := lowercaseChars ++ uppercaseChars ++ digitChars

/-- `all_chars = lowercase + uppercase + digits + special` of
`generate_password`. -/
def allPasswordChars : List Char := lowercaseChars ++ uppercaseChars ++ digitChars ++ specialChars

/-- `random.choice(cs)` driven by the draw `r`. -/
def pyChoice (cs : List Char) (r : Nat) : Char := cs.getD (r % cs.length) 'a'

lemma pyChoice_mem (cs : List Char) (r : Nat) (h : cs ≠ []) : pyChoice cs r ∈ cs := by
  have hlen : 0 < cs.length := List.length_pos.mpr h
  have hlt : r % cs.length < cs.length := Nat.mod_lt _ hlen
  unfold pyChoice
  rw [List.getD_eq_getElem cs 'a' hlt]
  exact List.getElem_mem hlt

/-- `generate_random_string(length)` (lines 20-33): `length` independent
draws from letters and digits. -/
def generate_random_string (r : Nat → Nat) (length : Nat) : List Char :=
  (List.range length).map fun i => pyChoice lettersDigits (r i)

/-- Python `str.strip(ch)`: remove every leading and trailing occurrence of
`ch`. -/
def pyStrip (ch : Char) (s : String) : String :=
  ⟨((s.data.dropWhile fun x => x = ch).reverse.dropWhile fun x => x = ch).reverse⟩

/-- `generate_email()` (lines 35-47): an 8-character random username, `@`,
and `config.DOMAIN.strip('@')`. -/
def generate_email (r : Nat → Nat) (domain : String) : String :=
  ⟨generate_random_string r 8 ++ '@' :: (pyStrip '@' domain).data⟩

/-- The list built by `generate_password` (lines 49-85) before
`random.shuffle`: one guaranteed character of each class, then eight draws
from the full alphabet. -/
def passwordPreShuffle (r : Nat → Nat) : List Char :=
  [pyChoice lowercaseChars (r 0), pyChoice uppercaseChars (r 1),
   pyChoice digitChars (r 2), pyChoice specialChars (r 3)] ++
    (List.range 8).map fun i => pyChoice allPasswordChars (r (4 + i))

/-- `generate_password()`: shuffle the assembled character list and join. -/
def generate_password (r : Nat → Nat) (shuffle : List Char → List Char) : String :=
  ⟨shuffle (passwordPreShuffle r)⟩

end Utils

/-! ## Captcha recognition (src/core/captcha_handler.py)

`_recognize_captcha` (lines 212-263) screenshots the captcha element, runs
OCR on the bytes, and filters the raw OCR output to alphanumeric characters.
A wrong length or a missing uppercase letter produces log warnings only; the
filtered text is returned regardless.  `none` is returned only when the
element is missing or the screenshot/OCR raises. -/

namespace Captcha

inductive OcrWarning
  | wrongLength
  | missingUppercase
deriving DecidableEq

/-- `''.join(c for c in result if c.isalnum())` (ASCII reading of
`isalnum`). -/
def filterAlnum (raw : String) : String := ⟨raw.data.filter fun ch => ch.isAlphanum⟩

/-- The warnings logged by `_recognize_captcha`: length not 6, and no
uppercase character (the source checks only `isupper` despite its
mixed-case wording). -/
def recognitionWarnings (filtered : String) : List OcrWarning :=
  (if filtered.length ≠ 6 then [OcrWarning.wrongLength] else []) ++
    (if !(filtered.data.any fun ch => ch.isUpper) then [OcrWarning.missingUppercase] else [])

/-- `_recognize_captcha(captcha_img)`: `img` is `none` when no element was
found, `ocr` is the outcome of screenshot plus `self.ocr.classification`
(`Except.error` models a raised exception, caught and turned into `None`). -/
def recognize_captcha (img : Option Unit) (ocr : Except Unit String) :
    Option (String × List OcrWarning) :=
  match img with
  | none => none
  | some _ =>
    match ocr with
    | .error _ => none
    | .ok raw =>
      let filtered := filterAlnum raw
      some (filtered, recognitionWarnings filtered)

end Captcha

/-! ## The registration orchestrator (src/tavily_auto.py)

`TavilyAutoRegister.start` (lines 63-117) runs the phases in order, returning
`False` on the first failing phase; `_get_api_key` (lines 290-330) raises
when the in-page fetch does not yield a usable key, and that exception is
caught by the `except` of `start`.  `_save_account_info` (lines 332-364)
appends one CSV row and swallows its own exceptions.  Phase outcomes and the
keys-endpoint response are supplied by a `RunEnv`; file writes, sleeps and
the single fetch are reified as a trace. -/

namespace Orchestrator

/-- One entry of the JSON list returned by the in-page `fetch('/api/keys')`. -/
structure KeyEntry where
  key : String
deriving DecidableEq

/-- The persisted row of `_save_account_info`. -/
structure AccountRecord where
  email : String
  password : String
  api_key : String
  created_at : String
deriving DecidableEq

inductive RunOp
  | sleepSec (n : Nat)
  | apiFetchCall
  | writeRecord (rec : AccountRecord)
  | browserClose
deriving DecidableEq

/-- The outcomes a run depends on: whether the browser starts, whether
navigation and the registration form succeed, the JSON of the keys endpoint
(`none` models a null result or an exception caught inside the injected
JavaScript), and whether the CSV write raises. -/
structure RunEnv where
  browserStart : Bool
  navigationOk : Bool
  formFillOk : Bool
  apiFetch : Option (List KeyEntry)
  writeOk : Bool

/-- The condition of the injected JavaScript of `_get_api_key`:
`data && data.length > 0 && data[0].key && data[0].key.startsWith('tvly-')`,
returning `data[0].key` when it holds and `null` otherwise. -/
def getApiKeyJs (resp : Option (List KeyEntry)) : Option String :=
  match resp with
  | some (e :: _) =>
    if e.key ≠ "" && "tvly-".data.isPrefixOf e.key.data then some e.key else none
  | _ => none

/-- `_get_api_key`: a 5-second wait, a 2-second wait inside the JavaScript,
one fetch of the keys endpoint; a miss raises (`Except.error`). -/
def get_api_key (resp : Option (List KeyEntry)) : Except Unit String × List RunOp :=
  ((match getApiKeyJs resp with
    | some k => Except.ok k
    | none => Except.error ()),
   [.sleepSec 5, .sleepSec 2, .apiFetchCall])

/-- `_save_account_info(email, password, api_key)`: appends one row; a raised
write is caught and logged, appending nothing and raising nothing. -/
def save_account_info (writeOk : Bool) (email password api_key now : String) : List RunOp :=
  if writeOk then [.writeRecord ⟨email, password, api_key, now⟩] else []

/-- `TavilyAutoRegister.start()`: result and trace.  The `finally` block
closes the browser on every path. -/
def start (env : RunEnv) (email password now : String) : Bool × List RunOp :=
  if !env.browserStart then (false, [.browserClose])
  else if !env.navigationOk then (false, [.browserClose])
  else if !env.formFillOk then (false, [.browserClose])
  else
    let p := get_api_key env.apiFetch
    match p.1 with
    | .error _ => (false, p.2 ++ [.browserClose])
    | .ok k => (true, p.2 ++ save_account_info env.writeOk email password k now ++ [.browserClose])

/-- Number of rows appended during a run. -/
def countWrites (ops : List RunOp) : Nat :=
  ops.countP fun op => match op with | .writeRecord _ => true | _ => false

/-- Number of keys-endpoint fetches during a run. -/
def countApiFetches (ops : List RunOp) : Nat :=
  ops.countP fun op => match op with | .apiFetchCall => true | _ => false

end Orchestrator

/-! ## Configuration loading (src/config.py)

`Config.__init__` reads environment values (an `Env` maps variable names to
`Option String`), converts the numeric ones with `int(...)` (whose failure,
like every failed check, surfaces as a `ValueError`), and runs
`check_config`.  Values kept for dynamic checks are embedded as `PyVal` so
that `check_is_valid`, which requires `isinstance(value, str)`, can be
stated as in the source. -/

namespace ConfigMod

/-- A dynamically typed configuration value. -/
inductive PyVal
  | vStr (s : String)
  | vInt (n : Int)
  | vNone
deriving DecidableEq

/-- The environment: `os.getenv`. -/
def Env : Type := String → Option String

def osGetenv (env : Env) (key : String) : Option String := env key

def osGetenvD (env : Env) (key dflt : String) : String := (env key).getD dflt

def optToPy : Option String → PyVal
  | some s => .vStr s
  | none => .vNone

/-- `check_is_valid` (lines 104-114): a string whose stripped form is
non-empty. -/
def check_is_valid : PyVal → Bool
  | .vStr s => decide (0 < s.trim.length)
  | _ => false

/-- `int(s)`, raising `ValueError` on failure. -/
def pyInt (s : String) : Except String Int :=
  match s.toInt? with
  | some n => .ok n
  | none => .error "ValueError: invalid literal for int()"

structure Config where
  BROWSER_TYPE : PyVal
  HEADLESS : Bool
  BROWSER_USER_AGENT : String
  BROWSER_WIDTH : Int
  BROWSER_HEIGHT : Int
  REGISTER_URL : String
  TEMP_MAIL : PyVal
  TEMP_MAIL_EXT : String
  TEMP_MAIL_EPIN : PyVal
  TEMP_MAIL_API_URL : String
  DOMAIN : String
  IMAP_SERVER : PyVal
  IMAP_PORT : PyVal
  IMAP_USER : PyVal
  IMAP_PASS : PyVal
  IMAP_DIR : String

/-- `check_config` (lines 71-102): required browser type; then either the
temp-mail value or, when it is the string "null", the four IMAP settings. -/
def check_config (cfg : Config) : Except String Unit :=
  if !(check_is_valid cfg.BROWSER_TYPE) then .error "ValueError: BROWSER_TYPE"
  else if cfg.TEMP_MAIL ≠ .vStr "null" then
    if !(check_is_valid cfg.TEMP_MAIL) then .error "ValueError: TEMP_MAIL" else .ok ()
  else
    if !(check_is_valid cfg.IMAP_SERVER) then .error "ValueError: IMAP_SERVER"
    else if !(check_is_valid cfg.IMAP_PORT) then .error "ValueError: IMAP_PORT"
    else if !(check_is_valid cfg.IMAP_USER) then .error "ValueError: IMAP_USER"
    else if !(check_is_valid cfg.IMAP_PASS) then .error "ValueError: IMAP_PASS"
    else .ok ()

/-- The `Config` record assembled by `Config.__init__` once the three `int`
conversions have produced values. -/
def assembleConfig (env : Env) (bw bh port : Int) : Config :=
  { BROWSER_TYPE := .vStr (osGetenvD env "BROWSER_TYPE" "chrome")
    HEADLESS := (osGetenvD env "HEADLESS" "true").toLower = "true"
    BROWSER_USER_AGENT := osGetenvD env "BROWSER_USER_AGENT" "Mozilla/5.0"
    BROWSER_WIDTH := bw
    BROWSER_HEIGHT := bh
    REGISTER_URL := osGetenvD env "REGISTER_URL" "https://app.tavily.com/sign-up"
    TEMP_MAIL := optToPy (osGetenv env "TEMP_MAIL")
    TEMP_MAIL_EXT := osGetenvD env "TEMP_MAIL_EXT" "@mailto.plus"
    TEMP_MAIL_EPIN := optToPy (osGetenv env "TEMP_MAIL_EPIN")
    TEMP_MAIL_API_URL := osGetenvD env "TEMP_MAIL_API_URL" "https://tempmail.plus/api"
    DOMAIN := osGetenvD env "DOMAIN" "@lzban8.me"
    IMAP_SERVER := optToPy (osGetenv env "IMAP_SERVER")
    IMAP_PORT := .vInt port
    IMAP_USER := optToPy (osGetenv env "IMAP_USER")
    IMAP_PASS := optToPy (osGetenv env "IMAP_PASS")
    IMAP_DIR := osGetenvD env "IMAP_DIR" "INBOX" }

/-- `Config.__init__` (lines 33-69): the `int(...)` conversions in source
order, then `check_config`; any raised `ValueError` propagates to the
constructor caller. -/
def mkConfig (env : Env) : Except String Config :=
  match pyInt (osGetenvD env "BROWSER_WIDTH" "1920") with
  | .error e => .error e
  | .ok bw =>
    match pyInt (osGetenvD env "BROWSER_HEIGHT" "1080") with
    | .error e => .error e
    | .ok bh =>
      match pyInt (osGetenvD env "IMAP_PORT" "993") with
      | .error e => .error e
      | .ok port =>
        let cfg := assembleConfig env bw bh port
        match check_config cfg with
        | .error e => .error e
        | .ok _ => .ok cfg

/-- Whether construction raised. -/
def raisesValueError (r : Except String Config) : Bool :=
  match r with
  | .error _ => true
  | .ok _ => false

end ConfigMod

/-! ## Claim theorems -/

/-- C1: counterexample.  The claim states that on a body containing
"...order 482913 confirmed, code: 728193..." the extractor returns "728193"
and not "482913".  In fact "482913" is preceded by a space — which the
lookbehind does not reject — so the leftmost match is "482913". -/
theorem C1_counterexample :
    EmailVerify.extract_code "...order 482913 confirmed, code: 728193..." = some "482913" ∧
      EmailVerify.extract_code "...order 482913 confirmed, code: 728193..." ≠ some "728193" := by
  constructor
  · decide
  · decide

/-- C1 (amended): code extraction returns the six digits at the leftmost
position where the regex matches — six digits not immediately preceded by a
word character, '@' or '.', and not immediately followed by a word
character.  On the example body this is "482913" (preceded by a space), not
"728193"; "id12345678" has no match. -/
theorem C1_extraction_leftmost :
    EmailVerify.extract_code "...order 482913 confirmed, code: 728193..." = some "482913" ∧
      EmailVerify.extract_code "id12345678" = none ∧
      ∀ (s w : String),
        EmailVerify.extract_code s = some w ↔
          ∃ i, EmailVerify.qualifiesAt s.data i = true ∧
            (∀ j, j < i → EmailVerify.qualifiesAt s.data j = false) ∧
            w = ⟨(s.data.drop i).take 6⟩ := by
  refine ⟨by decide, by decide, ?_⟩
  intro s w
  unfold EmailVerify.extract_code
  rw [Option.map_eq_some']
  constructor
  · rintro ⟨l, hl, hw⟩
    rcases (EmailVerify.searchCode_eq_some_iff s.data none l).mp hl with ⟨i, hq, hmin, hval⟩
    exact ⟨i, hq, hmin, by rw [← hw, hval]⟩
  · rintro ⟨i, hq, hmin, hw⟩
    refine ⟨(s.data.drop i).take 6, ?_, hw.symm⟩
    exact (EmailVerify.searchCode_eq_some_iff s.data none _).mpr ⟨i, hq, hmin, rfl⟩

/-- C1 witness: the leftmost characterization applied at a concrete body. -/
theorem C1_extraction_leftmost_witness :
    EmailVerify.extract_code "code 123456" = some "123456" :=
  ((C1_extraction_leftmost.2.2 "code 123456" "123456").mpr ⟨5, by decide, by decide, by decide⟩)

/-- C4: the verification-code retry loop returns the code after exactly N
fetch calls and N-1 sleeps when the first N-1 fetches miss and the N-th
hits; on exhaustion it makes exactly max_retries calls and returns `none`
(the embedding is total: the surrounding `try/except` converts any
exception into `None`). -/
theorem C4_retry_loop :
    ∀ (fetch : Nat → Option String) (max_retries N : Nat) (c : String),
      (1 ≤ N → N ≤ max_retries → (∀ i, i < N - 1 → fetch i = none) →
        fetch (N - 1) = some c →
        EmailVerify.get_verification_code fetch max_retries = (some c, N, N - 1)) ∧
      ((∀ i, i < max_retries → fetch i = none) →
        EmailVerify.get_verification_code fetch max_retries =
          (none, max_retries, max_retries - 1)) := by
  intro fetch max_retries N c
  constructor
  · intro h1 h2 hnone hc
    have hfound := EmailVerify.pollLoop_found fetch c (N - 1) max_retries 0
      (by omega) (by intro i hi; simpa using hnone i hi) (by simpa using hc)
    unfold EmailVerify.get_verification_code
    rw [show N - 1 + 1 = N by omega] at hfound
    rw [hfound]
  · intro hnone
    have := EmailVerify.pollLoop_exhausted fetch max_retries 0
      (by intro i hi; simpa using hnone i hi)
    unfold EmailVerify.get_verification_code
    rw [this]

/-- C4 witness: a stub missing twice then hitting on the third call, and a
stub that always misses. -/
theorem C4_retry_loop_witness :
    EmailVerify.get_verification_code (fun i => if i = 2 then some "123456" else none) 5 =
      (some "123456", 3, 2) ∧
      EmailVerify.get_verification_code (fun _ => (none : Option String)) 4 = (none, 4, 3) := by
  constructor
  · exact (C4_retry_loop (fun i => if i = 2 then some "123456" else none) 5 3 "123456").1
      (by omega) (by omega) (by decide) (by decide)
  · exact (C4_retry_loop (fun _ => (none : Option String)) 4 0 "x").2 (fun i _ => rfl)

/-- C3: counterexample.  The claim asserts that both mailbox backends delete
the consumed message after extracting a code.  The IMAP backend does not: a
concrete poll that extracts "123456" produces a trace consisting of SELECT,
SEARCH and FETCH only — no deletion of any kind. -/
theorem C3_counterexample :
    (EmailHandler.get_verification_code
        (fun _ => ⟨[7], some "your code is 123456"⟩) "tavily.com" 5 10).1 = some "123456" ∧
      (EmailHandler.get_verification_code
          (fun _ => ⟨[7], some "your code is 123456"⟩) "tavily.com" 5 10).2 =
        [.selectBox, .searchFrom "tavily.com", .fetchMsg 7] ∧
      ((EmailHandler.get_verification_code
          (fun _ => ⟨[7], some "your code is 123456"⟩) "tavily.com" 5 10).2.filter
        fun op => match op with | EmailHandler.ImapOp.deleteMsg _ => true | _ => false) = [] := by
  refine ⟨?_, ?_, ?_⟩ <;> decide

/-- C3 (amended): only the temp-mail HTTP backend deletes the consumed
message: when a code is extracted, the poll returns it and issues between 1
and 3 DELETE requests, regardless of their outcomes (best-effort, never
failing the poll); the IMAP backend never deletes a message. -/
theorem C3_deletion_per_backend :
    (∀ (st : EmailVerify.HttpMailState) (w : List Char),
      st.listStatus = 200 → st.mailIds ≠ [] → st.contentStatus = 200 →
      st.contentEmpty = false →
      EmailVerify.searchCode none (st.contentText.getD "").data = some w →
      (EmailVerify.get_latest_mail_code st).1 = some ⟨w⟩ ∧
        1 ≤ EmailVerify.countDeletes (EmailVerify.get_latest_mail_code st).2 ∧
        EmailVerify.countDeletes (EmailVerify.get_latest_mail_code st).2 ≤ 3) ∧
      ∀ (att : Nat → EmailHandler.ImapAttempt) (sender : String) (max_retries interval i : Nat),
        EmailHandler.ImapOp.deleteMsg i ∉
          (EmailHandler.get_verification_code att sender max_retries interval).2 := by
  constructor
  · intro st w h1 h2 h3 h4 hw
    have hrw : EmailVerify.get_latest_mail_code st =
        (some ⟨w⟩, [.getList, .getContent (st.mailIds.headD "")] ++
          (EmailVerify.cleanup_mail st.del (st.mailIds.headD "")).2) := by
      unfold EmailVerify.get_latest_mail_code
      rw [if_neg (by simp [h1]), if_neg (by simpa using h2), if_neg (by simp [h3]),
        if_neg (by simp [h4])]
      simp only [hw]
    rw [hrw]
    refine ⟨rfl, ?_, ?_⟩
    · have hpos := EmailVerify.cleanupLoop_deletes_pos st.del (st.mailIds.headD "") 3 0
        (by omega)
      simp only [EmailVerify.countDeletes, List.countP_append] at *
      simpa [EmailVerify.cleanup_mail] using hpos
    · have hle := EmailVerify.cleanupLoop_deletes_le st.del (st.mailIds.headD "") 3 0
      simp only [EmailVerify.countDeletes, List.countP_append] at *
      simpa [EmailVerify.cleanup_mail] using hle
  · intro att sender max_retries interval i
    exact EmailHandler.imapLoop_no_delete att sender interval max_retries 0 i

/-- C3 witness: a concrete HTTP poll where the code is found and the first
DELETE succeeds, plus the no-deletion fact at a concrete IMAP poll. -/
theorem C3_deletion_per_backend_witness :
    ((EmailVerify.get_latest_mail_code
        ⟨200, ["m1"], 200, false, some "code: 654321", fun _ => .ok200⟩).1 = some "654321" ∧
      1 ≤ EmailVerify.countDeletes (EmailVerify.get_latest_mail_code
        ⟨200, ["m1"], 200, false, some "code: 654321", fun _ => .ok200⟩).2 ∧
      EmailVerify.countDeletes (EmailVerify.get_latest_mail_code
        ⟨200, ["m1"], 200, false, some "code: 654321", fun _ => .ok200⟩).2 ≤ 3) ∧
      EmailHandler.ImapOp.deleteMsg 7 ∉
        (EmailHandler.get_verification_code
          (fun _ => ⟨[7], some "your code is 777888"⟩) "tavily.com" 5 10).2 := by
  constructor
  · exact C3_deletion_per_backend.1
      ⟨200, ["m1"], 200, false, some "code: 654321", fun _ => .ok200⟩
      "654321".data rfl (by decide) rfl rfl (by decide)
  · exact C3_deletion_per_backend.2 (fun _ => ⟨[7], some "your code is 777888"⟩)
      "tavily.com" 5 10 7

/-- C5: whenever `random.shuffle` permutes its input, the generated password
has length 12, contains at least one character of each of the four classes,
and is a permutation of the four guaranteed-class characters plus eight
characters drawn from the full alphabet. -/
theorem C5_generate_password :
    ∀ (r : Nat → Nat) (shuffle : List Char → List Char),
      (shuffle (Utils.passwordPreShuffle r)).Perm (Utils.passwordPreShuffle r) →
      (Utils.generate_password r shuffle).length = 12 ∧
        (∃ ch ∈ (Utils.generate_password r shuffle).data, ch ∈ Utils.lowercaseChars) ∧
        (∃ ch ∈ (Utils.generate_password r shuffle).data, ch ∈ Utils.uppercaseChars) ∧
        (∃ ch ∈ (Utils.generate_password r shuffle).data, ch ∈ Utils.digitChars) ∧
        (∃ ch ∈ (Utils.generate_password r shuffle).data, ch ∈ Utils.specialChars) ∧
        ∃ g1 g2 g3 g4 rest,
          (Utils.generate_password r shuffle).data.Perm ([g1, g2, g3, g4] ++ rest) ∧
            g1 ∈ Utils.lowercaseChars ∧ g2 ∈ Utils.uppercaseChars ∧
            g3 ∈ Utils.digitChars ∧ g4 ∈ Utils.specialChars ∧
            rest.length = 8 ∧ ∀ ch ∈ rest, ch ∈ Utils.allPasswordChars := by
  intro r shuffle hperm
  have hdata : (Utils.generate_password r shuffle).data = shuffle (Utils.passwordPreShuffle r) := rfl
  have hlen_pre : (Utils.passwordPreShuffle r).length = 12 := by
    simp [Utils.passwordPreShuffle]
  have hmem : ∀ ch, ch ∈ Utils.passwordPreShuffle r →
      ch ∈ (Utils.generate_password r shuffle).data := by
    intro ch hch
    rw [hdata]
    exact hperm.mem_iff.mpr hch
  refine ⟨?_, ?_, ?_, ?_, ?_, ?_⟩
  · show (Utils.generate_password r shuffle).data.length = 12
    rw [hdata, hperm.length_eq, hlen_pre]
  · exact ⟨Utils.pyChoice Utils.lowercaseChars (r 0),
      hmem _ (by simp [Utils.passwordPreShuffle]),
      Utils.pyChoice_mem _ _ (by decide)⟩
  · exact ⟨Utils.pyChoice Utils.uppercaseChars (r 1),
      hmem _ (by simp [Utils.passwordPreShuffle]),
      Utils.pyChoice_mem _ _ (by decide)⟩
  · exact ⟨Utils.pyChoice Utils.digitChars (r 2),
      hmem _ (by simp [Utils.passwordPreShuffle]),
      Utils.pyChoice_mem _ _ (by decide)⟩
  · exact ⟨Utils.pyChoice Utils.specialChars (r 3),
      hmem _ (by simp [Utils.passwordPreShuffle]),
      Utils.pyChoice_mem _ _ (by decide)⟩
  · refine ⟨Utils.pyChoice Utils.lowercaseChars (r 0),
      Utils.pyChoice Utils.uppercaseChars (r 1),
      Utils.pyChoice Utils.digitChars (r 2),
      Utils.pyChoice Utils.specialChars (r 3),
      (List.range 8).map fun i => Utils.pyChoice Utils.allPasswordChars (r (4 + i)),
      ?_, Utils.pyChoice_mem _ _ (by decide), Utils.pyChoice_mem _ _ (by decide),
      Utils.pyChoice_mem _ _ (by decide), Utils.pyChoice_mem _ _ (by decide),
      by simp, ?_⟩
    · rw [hdata]
      exact hperm
    · intro ch hch
      rcases List.mem_map.mp hch with ⟨i, _, hval⟩
      rw [← hval]
      exact Utils.pyChoice_mem _ _ (by decide)

/-- C5 witness: the identity shuffle and an all-zero draw stream. -/
theorem C5_generate_password_witness :
    (Utils.generate_password (fun _ => 0) id).length = 12 ∧
      (∃ ch ∈ (Utils.generate_password (fun _ => 0) id).data, ch ∈ Utils.lowercaseChars) ∧
      (∃ ch ∈ (Utils.generate_password (fun _ => 0) id).data, ch ∈ Utils.uppercaseChars) ∧
      (∃ ch ∈ (Utils.generate_password (fun _ => 0) id).data, ch ∈ Utils.digitChars) ∧
      (∃ ch ∈ (Utils.generate_password (fun _ => 0) id).data, ch ∈ Utils.specialChars) ∧
      ∃ g1 g2 g3 g4 rest,
        (Utils.generate_password (fun _ => 0) id).data.Perm ([g1, g2, g3, g4] ++ rest) ∧
          g1 ∈ Utils.lowercaseChars ∧ g2 ∈ Utils.uppercaseChars ∧
          g3 ∈ Utils.digitChars ∧ g4 ∈ Utils.specialChars ∧
          rest.length = 8 ∧ ∀ ch ∈ rest, ch ∈ Utils.allPasswordChars :=
  C5_generate_password (fun _ => 0) id (List.Perm.refl _)

/-- C9: every generated email is an 8-character alphanumeric local part,
one '@', then the configured domain with leading (and trailing) '@' signs
stripped; when the stripped domain itself contains no '@', the address
contains exactly one '@'; a leading '@' on the configured domain makes no
difference. -/
theorem C9_generate_email :
    ∀ (r : Nat → Nat) (domain : String),
      ((Utils.generate_email r domain).data =
          Utils.generate_random_string r 8 ++ '@' :: (Utils.pyStrip '@' domain).data ∧
        (Utils.generate_random_string r 8).length = 8 ∧
        ∀ ch ∈ Utils.generate_random_string r 8, ch.isAlphanum = true) ∧
      (('@' ∉ (Utils.pyStrip '@' domain).data) →
        (Utils.generate_email r domain).data.count '@' = 1) ∧
      Utils.generate_email r ("@" ++ domain) = Utils.generate_email r domain := by
  intro r domain
  have halnum : ∀ ch ∈ Utils.generate_random_string r 8, ch.isAlphanum = true := by
    intro ch hch
    rcases List.mem_map.mp hch with ⟨i, _, hval⟩
    have hm : ch ∈ Utils.lettersDigits := by
      rw [← hval]; exact Utils.pyChoice_mem _ _ (by decide)
    have hall : ∀ x ∈ Utils.lettersDigits, x.isAlphanum = true := by decide
    exact hall _ hm
  refine ⟨⟨rfl, by simp [Utils.generate_random_string], halnum⟩, ?_, ?_⟩
  · intro hdom
    have hne : '@' ∉ Utils.generate_random_string r 8 := by
      intro hmem
      have := halnum _ hmem
      simp [Char.isAlphanum, Char.isAlpha, Char.isDigit, Char.isUpper, Char.isLower] at this
    show List.count '@' (Utils.generate_random_string r 8 ++
      '@' :: (Utils.pyStrip '@' domain).data) = 1
    rw [List.count_append, List.count_cons_self,
      List.count_eq_zero.mpr hne, List.count_eq_zero.mpr hdom]
  · unfold Utils.generate_email
    have : Utils.pyStrip '@' ("@" ++ domain) = Utils.pyStrip '@' domain := by
      unfold Utils.pyStrip
      rw [String.data_append]
      simp
    rw [this]

/-- C9 witness: concrete draws and a domain carrying a leading '@'. -/
theorem C9_generate_email_witness :
    (Utils.generate_email (fun _ => 0) "@example.com").data.count '@' = 1 :=
  (C9_generate_email (fun _ => 0) "@example.com").2.1 (by decide)

/-- C8: the captcha recognizer strips every non-alphanumeric character from
the raw OCR output — "a1 B2#c3" yields "a1B2c3" — and whenever OCR produced
a string it returns the filtered text, for every raw input; structural
problems (wrong length, no uppercase) yield warnings alongside the returned
text, never a rejection, as the concrete input "abc" shows. -/
theorem C8_captcha_filter :
    Captcha.filterAlnum "a1 B2#c3" = "a1B2c3" ∧
      (∀ raw : String, ∃ ws, Captcha.recognize_captcha (some ()) (.ok raw) =
        some (Captcha.filterAlnum raw, ws)) ∧
      ∃ ws, ws ≠ [] ∧ Captcha.recognize_captcha (some ()) (.ok "abc") =
        some (Captcha.filterAlnum "abc", ws) := by
  refine ⟨by decide, fun raw => ⟨Captcha.recognitionWarnings (Captcha.filterAlnum raw), rfl⟩, ?_⟩
  exact ⟨[Captcha.OcrWarning.wrongLength, Captcha.OcrWarning.missingUppercase], by decide, by decide⟩

/-- C2: counterexample.  The claim asserts a record is appended iff an API
key was extracted.  In a run where every phase succeeds, the key is
extracted, but the CSV write raises, the run appends no record (and still
returns success), so the right-to-left direction fails. -/
theorem C2_counterexample :
    (Orchestrator.start ⟨true, true, true, some [⟨"tvly-demo"⟩], false⟩
        "u@x.io" "pw" "2025-01-01").1 = true ∧
      Orchestrator.getApiKeyJs (some [⟨"tvly-demo"⟩]) = some "tvly-demo" ∧
      Orchestrator.countWrites
        ((Orchestrator.start ⟨true, true, true, some [⟨"tvly-demo"⟩], false⟩
          "u@x.io" "pw" "2025-01-01").2) = 0 := by
  refine ⟨?_, ?_, ?_⟩ <;> decide

/-- C2 (amended): exactly one record is appended when all phases succeed,
the keys endpoint yields a usable key, and the persistence write does not
raise; otherwise no record is appended.  In particular a run failing before
key extraction writes nothing, and a record implies the key was
extracted. -/
theorem C2_record_written_iff :
    ∀ (env : Orchestrator.RunEnv) (email password now : String),
      Orchestrator.countWrites (Orchestrator.start env email password now).2 =
        (if env.browserStart && env.navigationOk && env.formFillOk &&
            (Orchestrator.getApiKeyJs env.apiFetch).isSome && env.writeOk
         then 1 else 0) := by
  intro env email password now
  rcases env with ⟨bs, nav, form, resp, wok⟩
  cases bs <;> cases nav <;> cases form <;>
    simp only [Orchestrator.start, Bool.not_true, Bool.not_false, if_true, if_false,
      Bool.false_and, Bool.true_and, Bool.and_false, Bool.and_true, ite_false,
      Orchestrator.countWrites, List.countP_cons, List.countP_nil, cond_false, cond_true]
  case false.false.false => rfl
  case false.false.true => rfl
  case false.true.false => rfl
  case false.true.true => rfl
  case true.false.false => rfl
  case true.false.true => rfl
  case true.true.false => rfl
  case true.true.true =>
    rcases Option.eq_none_or_eq_some (Orchestrator.getApiKeyJs resp) with hk | ⟨k, hk⟩ <;>
      cases wok <;>
      simp [Orchestrator.get_api_key, hk, Orchestrator.save_account_info,
        Orchestrator.countWrites, List.countP_append]

/-- C6: when every phase up to key extraction succeeds and the persistence
write raises, the write failure is swallowed: the run still returns success
and appends no record; no exception propagates (the embedding of
`_save_account_info` is total). -/
theorem C6_save_failure_swallowed :
    ∀ (resp : Option (List Orchestrator.KeyEntry)) (k email password now : String),
      Orchestrator.getApiKeyJs resp = some k →
      (Orchestrator.start ⟨true, true, true, resp, false⟩ email password now).1 = true ∧
        Orchestrator.countWrites
          ((Orchestrator.start ⟨true, true, true, resp, false⟩ email password now).2) = 0 := by
  intro resp k email password now hk
  constructor
  · simp [Orchestrator.start, Orchestrator.get_api_key, hk]
  · simp [Orchestrator.start, Orchestrator.get_api_key, hk, Orchestrator.save_account_info,
      Orchestrator.countWrites, List.countP_append]

/-- C6 witness: a concrete successful run whose write raises. -/
theorem C6_save_failure_swallowed_witness :
    (Orchestrator.start ⟨true, true, true, some [⟨"tvly-w"⟩], false⟩ "e" "p" "t").1 = true ∧
      Orchestrator.countWrites
        ((Orchestrator.start ⟨true, true, true, some [⟨"tvly-w"⟩], false⟩ "e" "p" "t").2) = 0 :=
  C6_save_failure_swallowed (some [⟨"tvly-w"⟩]) "tvly-w" "e" "p" "t" (by decide)

/-- C7: the keys endpoint is fetched at most once per run (exactly once when
the run reaches key extraction); any key the in-page check accepts starts
with "tvly-"; a successful run implies the check accepted a key; and when
the phases succeed but the check misses, the single fetch (after the fixed
5s and 2s delays) makes the whole run fail. -/
theorem C7_api_key_single_attempt :
    ∀ (env : Orchestrator.RunEnv) (email password now : String),
      Orchestrator.countApiFetches (Orchestrator.start env email password now).2 ≤ 1 ∧
        (∀ k, Orchestrator.getApiKeyJs env.apiFetch = some k →
          "tvly-".data.isPrefixOf k.data = true) ∧
        ((Orchestrator.start env email password now).1 = true →
          Orchestrator.getApiKeyJs env.apiFetch ≠ none) ∧
        ((Orchestrator.start env email password now).1 = true →
          Orchestrator.countApiFetches (Orchestrator.start env email password now).2 = 1) ∧
        (env.browserStart = true → env.navigationOk = true → env.formFillOk = true →
          Orchestrator.getApiKeyJs env.apiFetch = none →
          Orchestrator.start env email password now =
            (false, [.sleepSec 5, .sleepSec 2, .apiFetchCall, .browserClose])) := by
  intro env email password now
  rcases env with ⟨bs, nav, form, resp, wok⟩
  have hsave : Orchestrator.countApiFetches
      (Orchestrator.save_account_info wok email password "k" now) = 0 := by
    cases wok <;> rfl
  have hprefix : ∀ k, Orchestrator.getApiKeyJs resp = some k →
      "tvly-".data.isPrefixOf k.data = true := by
    intro k hk
    rcases resp with - | (- | ⟨e, rest⟩)
    · simp [Orchestrator.getApiKeyJs] at hk
    · simp [Orchestrator.getApiKeyJs] at hk
    · by_cases hc : (e.key ≠ "" && "tvly-".data.isPrefixOf e.key.data) = true
      · rw [Orchestrator.getApiKeyJs, if_pos hc] at hk
        cases hk
        rw [Bool.and_eq_true] at hc
        exact hc.2
      · rw [Orchestrator.getApiKeyJs, if_neg hc] at hk
        cases hk
  have hcases :
      (Orchestrator.start ⟨bs, nav, form, resp, wok⟩ email password now =
          (false, [.browserClose]) ∧ (bs = false ∨ nav = false ∨ form = false))
      ∨ (bs = true ∧ nav = true ∧ form = true ∧
          Orchestrator.getApiKeyJs resp = none ∧
          Orchestrator.start ⟨bs, nav, form, resp, wok⟩ email password now =
            (false, [.sleepSec 5, .sleepSec 2, .apiFetchCall, .browserClose]))
      ∨ ∃ k, bs = true ∧ nav = true ∧ form = true ∧
          Orchestrator.getApiKeyJs resp = some k ∧
          Orchestrator.start ⟨bs, nav, form, resp, wok⟩ email password now =
            (true, [.sleepSec 5, .sleepSec 2, .apiFetchCall] ++
              Orchestrator.save_account_info wok email password k now ++
              [.browserClose]) := by
    cases bs
    · exact Or.inl ⟨rfl, Or.inl rfl⟩
    · cases nav
      · exact Or.inl ⟨rfl, Or.inr (Or.inl rfl)⟩
      · cases form
        · exact Or.inl ⟨rfl, Or.inr (Or.inr rfl)⟩
        · rcases Option.eq_none_or_eq_some (Orchestrator.getApiKeyJs resp) with hk | ⟨k, hk⟩
          · refine Or.inr (Or.inl ⟨rfl, rfl, rfl, hk, ?_⟩)
            simp [Orchestrator.start, Orchestrator.get_api_key, hk]
          · refine Or.inr (Or.inr ⟨k, rfl, rfl, rfl, hk, ?_⟩)
            simp [Orchestrator.start, Orchestrator.get_api_key, hk]
  refine ⟨?_, hprefix, ?_, ?_, ?_⟩
  · rcases hcases with ⟨hstart, -⟩ | ⟨-, -, -, -, hstart⟩ | ⟨k, -, -, -, -, hstart⟩ <;>
      rw [hstart]
    · decide
    · decide
    · simp only [Orchestrator.countApiFetches, List.countP_append] at *
      cases wok <;> simp [Orchestrator.save_account_info]
  · intro hres
    rcases hcases with ⟨hstart, -⟩ | ⟨-, -, -, -, hstart⟩ | ⟨k, -, -, -, hk, -⟩
    · rw [hstart] at hres; exact absurd hres (by simp)
    · rw [hstart] at hres; exact absurd hres (by simp)
    · rw [hk]; exact Option.some_ne_none k
  · intro hres
    rcases hcases with ⟨hstart, -⟩ | ⟨-, -, -, -, hstart⟩ | ⟨k, -, -, -, -, hstart⟩
    · rw [hstart] at hres; exact absurd hres (by simp)
    · rw [hstart] at hres; exact absurd hres (by simp)
    · rw [hstart]
      simp only [Orchestrator.countApiFetches, List.countP_append]
      cases wok <;> simp [Orchestrator.save_account_info, Orchestrator.countApiFetches]
  · intro hbs hnav hform hk
    have hbs2 : bs = true := hbs
    have hnav2 : nav = true := hnav
    have hform2 : form = true := hform
    have hk2 : Orchestrator.getApiKeyJs resp = none := hk
    rcases hcases with ⟨-, hfail⟩ | ⟨-, -, -, -, hstart⟩ | ⟨k, -, -, -, hk3, -⟩
    · rcases hfail with h | h | h
      · rw [hbs2] at h; cases h
      · rw [hnav2] at h; cases h
      · rw [hform2] at h; cases h
    · exact hstart
    · rw [hk2] at hk3; cases hk3

/-- C7 witness: a run whose keys endpoint yields nothing fails after the
single fetch, and a concrete accepted key has the expected prefix. -/
theorem C7_api_key_single_attempt_witness :
    Orchestrator.start ⟨true, true, true, none, true⟩ "e" "p" "t" =
      (false, [.sleepSec 5, .sleepSec 2, .apiFetchCall, .browserClose]) ∧
      "tvly-".data.isPrefixOf ("tvly-xyz" : String).data = true := by
  constructor
  · exact (C7_api_key_single_attempt ⟨true, true, true, none, true⟩ "e" "p" "t").2.2.2.2
      rfl rfl rfl rfl
  · exact (C7_api_key_single_attempt ⟨true, true, true, some [⟨"tvly-xyz"⟩], true⟩
      "e" "p" "t").2.1 "tvly-xyz" (by decide)

/-- When the configured `TEMP_MAIL` value is the string "null" and the IMAP
port field holds an `int`, `check_config` always raises. -/
lemma check_config_imap_err (cfg : ConfigMod.Config)
    (h1 : cfg.TEMP_MAIL = .vStr "null") (n : Int) (h2 : cfg.IMAP_PORT = .vInt n) :
    ∃ msg, ConfigMod.check_config cfg = .error msg := by
  unfold ConfigMod.check_config
  by_cases hbt : ConfigMod.check_is_valid cfg.BROWSER_TYPE = true
  · rw [if_neg (by simp [hbt])]
    rw [if_neg (by simp [h1])]
    by_cases hs : ConfigMod.check_is_valid cfg.IMAP_SERVER = true
    · rw [if_neg (by simp [hs])]
      rw [if_pos (by simp [h2, ConfigMod.check_is_valid])]
      exact ⟨_, rfl⟩
    · rw [if_pos (by simpa using hs)]
      exact ⟨_, rfl⟩
  · rw [if_pos (by simpa using hbt)]
    exact ⟨_, rfl⟩

/-- C10: `check_is_valid` rejects every `int`, and for every environment
with `TEMP_MAIL` set to the string "null", constructing `Config` raises
`ValueError` — the IMAP branch of `check_config` can never pass, because
`IMAP_PORT` is always parsed to an `int` first (and should that parse itself
fail, the `ValueError` propagates too). -/
theorem C10_null_temp_mail_raises :
    (∀ n : Int, ConfigMod.check_is_valid (.vInt n) = false) ∧
      ∀ env : ConfigMod.Env, env "TEMP_MAIL" = some "null" →
        ConfigMod.raisesValueError (ConfigMod.mkConfig env) = true := by
  constructor
  · intro n; rfl
  · intro env h
    unfold ConfigMod.mkConfig
    rcases hbw : ConfigMod.pyInt (ConfigMod.osGetenvD env "BROWSER_WIDTH" "1920") with e1 | bw
    · rfl
    · rcases hbh : ConfigMod.pyInt (ConfigMod.osGetenvD env "BROWSER_HEIGHT" "1080") with e2 | bh
      · rfl
      · rcases hp : ConfigMod.pyInt (ConfigMod.osGetenvD env "IMAP_PORT" "993") with e3 | port
        · rfl
        · obtain ⟨msg, hmsg⟩ := check_config_imap_err (ConfigMod.assembleConfig env bw bh port)
            (by simp [ConfigMod.assembleConfig, ConfigMod.osGetenv, h, ConfigMod.optToPy])
            port rfl
          simp only [hmsg]
          rfl

/-- C10 witness: the minimal environment selecting the IMAP backend. -/
theorem C10_null_temp_mail_raises_witness :
    ConfigMod.raisesValueError
      (ConfigMod.mkConfig fun k => if k = "TEMP_MAIL" then some "null" else none) = true :=
  C10_null_temp_mail_raises.2 (fun k => if k = "TEMP_MAIL" then some "null" else none) (by decide)

end Tavily
